import Mathlib

/-!
# Session lifecycle of `AuthContext.jsx`

A shallow embedding of `src/frontend/src/contexts/AuthContext.jsx`: the React
state `user`, the `localStorage` item `'token'`, the three network endpoints
reached through `fetch`, and the four routines of the provider (`fetchUser`,
`logout`, `login`, `register`).

Every routine is a pure function from the session before the call to the
value it returns, the session after the call and the ordered list of side
effects it performed (network requests, storage writes, state writes,
navigation, console output).
-/

namespace AuthContext

/-! ## JavaScript values -/

mutual
/-- The JavaScript values that flow through the provider: whatever
`JSON.parse` can produce, plus `undefined` (what reading a missing property
gives). A number is carried by the text `String(n)` gives for it. -/
inductive JSValue where
  | undefined
  | null
  | bool (b : Bool)
  | number (text : String)
  | string (s : String)
  | array (items : JSList)
  | object (fields : JSFields)
/-- The elements of an array, in order. -/
inductive JSList where
  | nil
  | cons (head : JSValue) (tail : JSList)
/-- The own properties of an object, in insertion order (a parsed object
has no two properties with the same name). -/
inductive JSFields where
  | nil
  | cons (key : String) (value : JSValue) (rest : JSFields)
end

/-- Own-property lookup `fields[key]`: `none` when there is no such property. -/
def JSFields.lookup (key : String) : JSFields → Option JSValue
  | .nil => none
  | .cons k v rest => if k = key then some v else JSFields.lookup key rest

/-- Property read `v.key` for a name that is not a built-in member of any
prototype (`token`, `user`, `message`): reading from `null` or `undefined`
throws a `TypeError` (`none`); an object yields its own property or
`undefined`; every other value yields `undefined`. -/
def JSValue.getProp (v : JSValue) (key : String) : Option JSValue :=
  match v with
  | .undefined => none
  | .null => none
  | .object fields => some ((fields.lookup key).getD .undefined)
  | _ => some .undefined

mutual
/-- The string conversion `String(v)` that a template literal and
`localStorage.setItem` apply to their argument. -/
def JSValue.toStr : JSValue → String
  | .undefined => "undefined"
  | .null => "null"
  | .bool true => "true"
  | .bool false => "false"
  | .number text => text
  | .string s => s
  | .array items => JSList.join items
  | .object _ => "[object Object]"
/-- The conversion `Array.prototype.join` applies to one element: `null`
and `undefined` give the empty string. -/
def JSValue.joinItem : JSValue → String
  | .undefined => ""
  | .null => ""
  | .bool true => "true"
  | .bool false => "false"
  | .number text => text
  | .string s => s
  | .array items => JSList.join items
  | .object _ => "[object Object]"
/-- The text `items.join(",")`. -/
def JSList.join : JSList → String
  | .nil => ""
  | .cons head .nil => JSValue.joinItem head
  | .cons head (.cons h t) => JSValue.joinItem head ++ "," ++ JSList.join (.cons h t)
end

/-! ## The network, the store and the session -/

/-- The constant `BACKEND_URL`: the build-time variable `VITE_BACKEND_URL`
when it is set and non-empty, the local default otherwise (`a || b`). -/
def BACKEND_URL (VITE_BACKEND_URL : Option String) : String :=
  match VITE_BACKEND_URL with
  | none => "http://localhost:3000"
  | some url => if url = "" then "http://localhost:3000" else url

/-- The arguments of one `fetch` call. `body` is the object handed to
`JSON.stringify`, when the call has a body. -/
structure Request where
  url : String
  method : String
  headers : List (String × String)
  body : Option JSFields

/-- What a resolved `fetch` gives: the HTTP status, and what `await
res.json()` resolves to (`none` when reading or parsing the body rejects). -/
structure Response where
  status : Nat
  json : Option JSValue

/-- The flag `res.ok`: the status is in the range 200 to 299. -/
def Response.ok (res : Response) : Bool :=
  decide (200 ≤ res.status) && decide (res.status ≤ 299)

/-- The remote service as seen by one routine: for each request, the
response `fetch` resolves to, or `none` when `fetch` rejects (transport
error). -/
abbrev Remote := Request → Option Response

/-- The two pieces of state the provider owns: the React state `user` and
the `localStorage` item `'token'` (`none`: no such item). -/
structure Session where
  user : JSValue
  token : Option String

/-- One observable side effect of a routine. -/
inductive Effect where
  | fetch (req : Request)
  | setItem (key value : String)
  | removeItem (key : String)
  | setUser (v : JSValue)
  | navigate (path : String)
  | consoleError (label : String)

/-- The result of running a routine to completion: the value it returns,
the session it leaves, and its side effects in the order they happened. -/
structure Outcome (α : Type) where
  ret : α
  session : Session
  effects : List Effect

/-- The state at mount, and after a hard reload: `useState(null)`, with the
store holding whatever it held. -/
def mount (stored : Option String) : Session :=
  { user := .null, token := stored }

/-- A hard reload: the in-memory state is lost, `localStorage` survives. -/
def reload (s : Session) : Session := mount s.token

/-- The request `GET /user/me` with the bearer credential. -/
def whoamiRequest (env : Option String) (token : String) : Request :=
  { url := BACKEND_URL env ++ "/user/me"
    method := "GET"
    headers := [("Content-Type", "application/json"), ("Authorization", "Bearer " ++ token)]
    body := none }

/-- The request `POST /login` with the credentials. -/
def loginRequest (env : Option String) (username password : String) : Request :=
  { url := BACKEND_URL env ++ "/login"
    method := "POST"
    headers := [("Content-Type", "application/json")]
    body := some (.cons "username" (.string username) (.cons "password" (.string password) .nil)) }

/-- The request `POST /register` with the four fields read from `userData`. -/
def registerRequest (env : Option String) (userData : JSFields) : Request :=
  { url := BACKEND_URL env ++ "/register"
    method := "POST"
    headers := [("Content-Type", "application/json")]
    body := some
      (.cons "username" ((userData.lookup "username").getD .undefined)
      (.cons "firstname" ((userData.lookup "firstname").getD .undefined)
      (.cons "lastname" ((userData.lookup "lastname").getD .undefined)
      (.cons "password" ((userData.lookup "password").getD .undefined) .nil)))) }

/-! ## The routines of the provider -/

/-- The `catch` branch of `fetchUser`: the error is logged, nothing else. -/
def fetchUserCatch (s : Session) (done : List Effect) : Outcome Unit :=
  ⟨(), s, done ++ [.consoleError "Error checking user on mount:"]⟩

/-- The routine `fetchUser`, run once at mount. -/
def fetchUser (env : Option String) (remote : Remote) (s : Session) : Outcome Unit :=
  match s.token with
  | none => ⟨(), s, []⟩
  | some token =>
    if token = "" then ⟨(), s, []⟩
    else
      let req := whoamiRequest env token
      match remote req with
      | none => fetchUserCatch s [.fetch req]
      | some res =>
        if res.ok then
          match res.json with
          | none => fetchUserCatch s [.fetch req]
          | some data =>
            match data.getProp "user" with
            | none => fetchUserCatch s [.fetch req]
            | some u => ⟨(), { s with user := u }, [.fetch req, .setUser u]⟩
        else
          ⟨(), { s with token := none }, [.fetch req, .removeItem "token"]⟩

/-- The routine `logout`. -/
def logout (_ : Session) : Outcome Unit :=
  ⟨(), { user := .null, token := none },
    [.removeItem "token", .setUser .null, .navigate "/"]⟩

/-- The `catch` branch of `login`. -/
def loginCatch (s : Session) (done : List Effect) : Outcome String :=
  ⟨"An error occurred while logging in", s, done ++ [.consoleError "Login error:"]⟩

/-- The routine `login`. -/
def login (env : Option String) (remote : Remote) (username password : String)
    (s : Session) : Outcome String :=
  let req := loginRequest env username password
  match remote req with
  | none => loginCatch s [.fetch req]
  | some res =>
    if !res.ok then ⟨"Invalid username or password", s, [.fetch req]⟩
    else
      match res.json with
      | none => loginCatch s [.fetch req]
      | some data =>
        match data.getProp "token" with
        | none => loginCatch s [.fetch req]
        | some token =>
          let s1 : Session := { s with token := some token.toStr }
          let req1 := whoamiRequest env token.toStr
          let done := [Effect.fetch req, .setItem "token" token.toStr, .fetch req1]
          match remote req1 with
          | none => loginCatch s1 done
          | some res1 =>
            if !res1.ok then ⟨"Failed to fetch user info", s1, done⟩
            else
              match res1.json with
              | none => loginCatch s1 done
              | some userData =>
                match userData.getProp "user" with
                | none => loginCatch s1 done
                | some u =>
                  ⟨"Successfully Logged in.", { s1 with user := u },
                    done ++ [.setUser u, .navigate "/profile"]⟩

/-- The routine `register`. Its `catch` binds no error and logs nothing. -/
def register (env : Option String) (remote : Remote) (userData : JSFields)
    (s : Session) : Outcome JSValue :=
  let req := registerRequest env userData
  match remote req with
  | none => ⟨.string "An error occurred while registering.", s, [.fetch req]⟩
  | some res =>
    if res.status = 409 then ⟨.string "Username already exists.", s, [.fetch req]⟩
    else if !res.ok then ⟨.string "Something went wrong while registering.", s, [.fetch req]⟩
    else
      match res.json with
      | none => ⟨.string "An error occurred while registering.", s, [.fetch req]⟩
      | some data =>
        match data.getProp "message" with
        | none => ⟨.string "An error occurred while registering.", s, [.fetch req]⟩
        | some message => ⟨message, s, [.fetch req, .navigate "/success"]⟩

/-! ## Sequences of calls -/

/-- One call a consumer of the context can make. -/
inductive Call where
  | login (username password : String)
  | register (userData : JSFields)
  | logout

/-- The session after one call has run to completion against `remote`. -/
def Call.run (env : Option String) (remote : Remote) (c : Call) (s : Session) : Session :=
  match c with
  | .login username password => (AuthContext.login env remote username password s).session
  | .register userData => (AuthContext.register env remote userData s).session
  | .logout => (AuthContext.logout s).session

/-- The session after a sequence of calls, each run to completion, each
against its own behaviour of the remote service. -/
def runCalls (env : Option String) : List (Remote × Call) → Session → Session
  | [], s => s
  | (remote, c) :: rest, s => runCalls env rest (c.run env remote s)

/-! ## Interleaving at the awaits

`login` is an `async` function: it runs synchronously up to each `await`,
is suspended there, and is resumed with the value the awaited promise
settled to. While it is suspended other calls run against the same `user`
state and the same `localStorage`. -/

/-- A `login` call between two of its synchronous stretches: suspended at one
of its four `await`s with the locals it still needs, or returned. -/
inductive LoginTask where
  | awaitLogin (req : Request)
  | awaitLoginBody (res : Response)
  | awaitWhoami (req1 : Request)
  | awaitWhoamiBody (res1 : Response)
  | returned (ret : String)

/-- The `catch` branch of `login`, reached from a resumed stretch. -/
def LoginTask.caught (s : Session) : Outcome LoginTask :=
  ⟨.returned "An error occurred while logging in", s, [.consoleError "Login error:"]⟩

/-- The synchronous stretch of `login` from one `await` to the next (or to
its `return`), run on the session as it is when the call is resumed. -/
def LoginTask.resume (env : Option String) (remote : Remote) (task : LoginTask)
    (s : Session) : Outcome LoginTask :=
  match task with
  | .awaitLogin req =>
    match remote req with
    | none => LoginTask.caught s
    | some res =>
      if !res.ok then ⟨.returned "Invalid username or password", s, []⟩
      else ⟨.awaitLoginBody res, s, []⟩
  | .awaitLoginBody res =>
    match res.json with
    | none => LoginTask.caught s
    | some data =>
      match data.getProp "token" with
      | none => LoginTask.caught s
      | some token =>
        let req1 := whoamiRequest env token.toStr
        ⟨.awaitWhoami req1, { s with token := some token.toStr },
          [.setItem "token" token.toStr, .fetch req1]⟩
  | .awaitWhoami req1 =>
    match remote req1 with
    | none => LoginTask.caught s
    | some res1 =>
      if !res1.ok then ⟨.returned "Failed to fetch user info", s, []⟩
      else ⟨.awaitWhoamiBody res1, s, []⟩
  | .awaitWhoamiBody res1 =>
    match res1.json with
    | none => LoginTask.caught s
    | some userData =>
      match userData.getProp "user" with
      | none => LoginTask.caught s
      | some u =>
        ⟨.returned "Successfully Logged in.", { s with user := u },
          [.setUser u, .navigate "/profile"]⟩
  | .returned ret => ⟨.returned ret, s, []⟩

/-- The provider with its `login` calls in flight. -/
structure App where
  session : Session
  logins : List LoginTask
  effects : List Effect

/-- One scheduling step: a consumer calls `login` or `logout`, or the
`i`-th `login` in flight is resumed. -/
inductive Action where
  | callLogin (username password : String)
  | callLogout
  | resumeLogin (i : Nat)

/-- The effect of one scheduling step. A new `login` runs to its first
`await`; `logout` runs whole (it has no `await`). -/
def App.step (env : Option String) (remote : Remote) (a : App) : Action → App
  | .callLogin username password =>
    let req := loginRequest env username password
    { a with logins := a.logins ++ [.awaitLogin req], effects := a.effects ++ [.fetch req] }
  | .callLogout =>
    let out := logout a.session
    { a with session := out.session, effects := a.effects ++ out.effects }
  | .resumeLogin i =>
    match a.logins.get? i with
    | none => a
    | some task =>
      let out := task.resume env remote a.session
      { session := out.session, logins := a.logins.set i out.ret,
        effects := a.effects ++ out.effects }

/-- The provider after a schedule of steps. -/
def App.run (env : Option String) (remote : Remote) : List Action → App → App
  | [], a => a
  | act :: rest, a => App.run env remote rest (a.step env remote act)

/-- The schedule of one `login` call that nothing interrupts. -/
def uninterruptedLogin (username password : String) : List Action :=
  [.callLogin username password, .resumeLogin 0, .resumeLogin 0, .resumeLogin 0, .resumeLogin 0]

/-- The schedule in which `logout` is called while a `login` is suspended at
its whoami request. -/
def logoutDuringLogin (username password : String) : List Action :=
  [.callLogin username password, .resumeLogin 0, .resumeLogin 0, .callLogout,
    .resumeLogin 0, .resumeLogin 0]

/-! ## Scenarios of the remote service -/

/-- The login endpoint answers 2xx with a body whose `token` is the string `T`. -/
def LoginAccepted (env : Option String) (remote : Remote) (username password T : String) : Prop :=
  ∃ res data, remote (loginRequest env username password) = some res ∧ res.ok = true ∧
    res.json = some data ∧ data.getProp "token" = some (.string T)

/-- The login endpoint answers with a status outside 200..299. -/
def LoginRejected (env : Option String) (remote : Remote) (username password : String) : Prop :=
  ∃ res, remote (loginRequest env username password) = some res ∧ res.ok = false

/-- The whoami request carrying `T` answers 2xx with a body whose `user` is `u`. -/
def WhoamiOk (env : Option String) (remote : Remote) (T : String) (u : JSValue) : Prop :=
  ∃ res data, remote (whoamiRequest env T) = some res ∧ res.ok = true ∧
    res.json = some data ∧ data.getProp "user" = some u

/-- The whoami request carrying `T` answers with a status outside 200..299. -/
def WhoamiRejected (env : Option String) (remote : Remote) (T : String) : Prop :=
  ∃ res, remote (whoamiRequest env T) = some res ∧ res.ok = false

/-- The whoami request carrying `T` fails in transport: `fetch` rejects, or
the response is 2xx and reading its body rejects, or the body read is
malformed in that `user` cannot be read from it (`null`). -/
def WhoamiTransportError (env : Option String) (remote : Remote) (T : String) : Prop :=
  remote (whoamiRequest env T) = none ∨
    ∃ res, remote (whoamiRequest env T) = some res ∧ res.ok = true ∧
      (res.json = none ∨ ∃ data, res.json = some data ∧ data.getProp "user" = none)

/-- The four `await`s of `login` at which a transport error can surface. The
two whoami points record the token `T` the login response carried. -/
inductive LoginAwait where
  | loginRequest
  | loginBody
  | whoamiRequest (T : String)
  | whoamiBody (T : String)

/-- A transport error surfaces at the given `await` of this `login` call. -/
def TransportErrorAt (env : Option String) (remote : Remote) (username password : String) :
    LoginAwait → Prop
  | .loginRequest => remote (loginRequest env username password) = none
  | .loginBody => ∃ res, remote (loginRequest env username password) = some res ∧
      res.ok = true ∧ res.json = none
  | .whoamiRequest T => LoginAccepted env remote username password T ∧
      remote (whoamiRequest env T) = none
  | .whoamiBody T => LoginAccepted env remote username password T ∧
      ∃ res1, remote (whoamiRequest env T) = some res1 ∧ res1.ok = true ∧ res1.json = none

/-- The store content a transport error at the given `await` leaves behind:
before the token is persisted the prior content, after it the new token. -/
def LoginAwait.storeAfter (prior : Option String) : LoginAwait → Option String
  | .loginRequest => prior
  | .loginBody => prior
  | .whoamiRequest T => some T
  | .whoamiBody T => some T

/-- The invariant: a `user` other than `null` comes with a stored token. -/
def UserHasToken (s : Session) : Prop :=
  s.user ≠ .null → s.token.isSome = true

/-! ## Concrete services and values used in the examples -/

/-- The identity record of the user `alice`. -/
def alice : JSValue := .object (.cons "username" (.string "alice") .nil)

/-- A service that accepts every login with the token `T` and answers every
whoami 2xx with the user `u`. -/
def acceptingRemote (T : String) (u : JSValue) : Remote := fun req =>
  if req.method = "POST" then some ⟨200, some (.object (.cons "token" (.string T) .nil))⟩
  else some ⟨200, some (.object (.cons "user" u .nil))⟩

/-- A service that accepts every login with the token `T` and answers every
whoami 401. -/
def expiringRemote (T : String) : Remote := fun req =>
  if req.method = "POST" then some ⟨200, some (.object (.cons "token" (.string T) .nil))⟩
  else some ⟨401, some (.object (.cons "error" (.string "Unauthorized") .nil))⟩

/-- A service that accepts every login with the token `T` and is unreachable
for every other request. -/
def vanishingRemote (T : String) : Remote := fun req =>
  if req.method = "POST" then some ⟨200, some (.object (.cons "token" (.string T) .nil))⟩
  else none

/-- A service that answers every request with the given status and an empty
object. -/
def statusRemote (status : Nat) : Remote := fun _ =>
  some ⟨status, some (.object .nil)⟩

/-! ## The stepwise `login` agrees with the whole one -/

/-- Run without interruption, the stepwise `login` leaves the session,
performs the effects and returns the value of `login` run whole. -/
theorem uninterruptedLogin_eq_login (env : Option String) (remote : Remote)
    (username password : String) (s : Session) :
    App.run env remote (uninterruptedLogin username password) ⟨s, [], []⟩ =
      ⟨(login env remote username password s).session,
        [.returned (login env remote username password s).ret],
        (login env remote username password s).effects⟩ := by
  cases h : remote (loginRequest env username password) with
  | none => simp [uninterruptedLogin, App.run, App.step, login, LoginTask.resume,
      LoginTask.caught, loginCatch, h]
  | some res =>
    cases hok : res.ok with
    | false => simp [uninterruptedLogin, App.run, App.step, login, LoginTask.resume, h, hok]
    | true =>
      cases hj : res.json with
      | none => simp [uninterruptedLogin, App.run, App.step, login, LoginTask.resume,
          LoginTask.caught, loginCatch, h, hok, hj]
      | some data =>
        cases ht : data.getProp "token" with
        | none => simp [uninterruptedLogin, App.run, App.step, login, LoginTask.resume,
            LoginTask.caught, loginCatch, h, hok, hj, ht]
        | some token =>
          cases h1 : remote (whoamiRequest env token.toStr) with
          | none => simp [uninterruptedLogin, App.run, App.step, login, LoginTask.resume,
              LoginTask.caught, loginCatch, h, hok, hj, ht, h1]
          | some res1 =>
            cases hok1 : res1.ok with
            | false => simp [uninterruptedLogin, App.run, App.step, login, LoginTask.resume,
                h, hok, hj, ht, h1, hok1]
            | true =>
              cases hj1 : res1.json with
              | none => simp [uninterruptedLogin, App.run, App.step, login, LoginTask.resume,
                  LoginTask.caught, loginCatch, h, hok, hj, ht, h1, hok1, hj1]
              | some userData =>
                cases hu : userData.getProp "user" with
                | none => simp [uninterruptedLogin, App.run, App.step, login, LoginTask.resume,
                    LoginTask.caught, loginCatch, h, hok, hj, ht, h1, hok1, hj1, hu]
                | some u => simp [uninterruptedLogin, App.run, App.step, login,
                    LoginTask.resume, h, hok, hj, ht, h1, hok1, hj1, hu]

/-! ## Facts about the scenarios -/

theorem acceptingRemote_loginAccepted (env : Option String) (T : String) (u : JSValue)
    (username password : String) :
    LoginAccepted env (acceptingRemote T u) username password T :=
  ⟨⟨200, some (.object (.cons "token" (.string T) .nil))⟩, _,
    by simp [acceptingRemote, loginRequest], rfl, rfl,
    by simp [JSValue.getProp, JSFields.lookup]⟩

theorem acceptingRemote_whoamiOk (env : Option String) (T T1 : String) (u : JSValue) :
    WhoamiOk env (acceptingRemote T u) T1 u :=
  ⟨⟨200, some (.object (.cons "user" u .nil))⟩, _,
    by simp [acceptingRemote, whoamiRequest], rfl, rfl,
    by simp [JSValue.getProp, JSFields.lookup]⟩

theorem expiringRemote_loginAccepted (env : Option String) (T : String)
    (username password : String) :
    LoginAccepted env (expiringRemote T) username password T :=
  ⟨⟨200, some (.object (.cons "token" (.string T) .nil))⟩, _,
    by simp [expiringRemote, loginRequest], rfl, rfl,
    by simp [JSValue.getProp, JSFields.lookup]⟩

theorem expiringRemote_whoamiRejected (env : Option String) (T T1 : String) :
    WhoamiRejected env (expiringRemote T) T1 :=
  ⟨⟨401, some (.object (.cons "error" (.string "Unauthorized") .nil))⟩,
    by simp [expiringRemote, whoamiRequest], by decide⟩

theorem vanishingRemote_loginAccepted (env : Option String) (T : String)
    (username password : String) :
    LoginAccepted env (vanishingRemote T) username password T :=
  ⟨⟨200, some (.object (.cons "token" (.string T) .nil))⟩, _,
    by simp [vanishingRemote, loginRequest], rfl, rfl,
    by simp [JSValue.getProp, JSFields.lookup]⟩

theorem vanishingRemote_whoami (env : Option String) (T T1 : String) :
    vanishingRemote T (whoamiRequest env T1) = none := by
  simp [vanishingRemote, whoamiRequest]

/-- What `login` does once the login endpoint has accepted with token `T`:
the token is persisted and the whoami request carrying it decides the rest. -/
theorem login_of_accepted (env : Option String) (remote : Remote)
    (username password T : String) (s : Session)
    (h : LoginAccepted env remote username password T) :
    login env remote username password s =
      (let s1 : Session := { s with token := some T }
       let done := [Effect.fetch (loginRequest env username password),
         .setItem "token" T, .fetch (whoamiRequest env T)]
       match remote (whoamiRequest env T) with
       | none => loginCatch s1 done
       | some res1 =>
         if !res1.ok then ⟨"Failed to fetch user info", s1, done⟩
         else
           match res1.json with
           | none => loginCatch s1 done
           | some userData =>
             match userData.getProp "user" with
             | none => loginCatch s1 done
             | some u =>
               ⟨"Successfully Logged in.", { s1 with user := u },
                 done ++ [.setUser u, .navigate "/profile"]⟩) := by
  obtain ⟨res, data, hres, hok, hjson, htok⟩ := h
  simp [login, hres, hok, hjson, htok, JSValue.toStr]

/-- What `login` does when the login endpoint accepts with token `T` and the
whoami request carrying `T` answers 2xx with `u`. -/
theorem login_of_accepted_of_whoamiOk (env : Option String) (remote : Remote)
    (username password T : String) (u : JSValue) (s : Session)
    (hlogin : LoginAccepted env remote username password T)
    (hwho : WhoamiOk env remote T u) :
    login env remote username password s =
      ⟨"Successfully Logged in.", { user := u, token := some T },
        [.fetch (loginRequest env username password), .setItem "token" T,
          .fetch (whoamiRequest env T), .setUser u, .navigate "/profile"]⟩ := by
  obtain ⟨res1, userData, hres1, hok1, hjson1, huser⟩ := hwho
  rw [login_of_accepted env remote username password T s hlogin]
  simp [hres1, hok1, hjson1, huser]

/-- What `fetchUser` does at mount with a non-empty token stored and a whoami
that answers 2xx. -/
theorem fetchUser_eq_of_whoamiOk (env : Option String) (remote : Remote) (T : String)
    (u : JSValue) (hT : T ≠ "") (h : WhoamiOk env remote T u) :
    fetchUser env remote (mount (some T)) =
      ⟨(), { user := u, token := some T }, [.fetch (whoamiRequest env T), .setUser u]⟩ := by
  obtain ⟨res, data, hres, hok, hjson, huser⟩ := h
  simp [fetchUser, mount, hT, hres, hok, hjson, huser]

/-! ## Login -/

/-- C2. When the login endpoint answers 2xx with token `T` and the whoami
request carrying `T` answers 2xx with user `u`, `login` returns
"Successfully Logged in.", leaves `user = u` and the stored token `T`, and
its effects are, in this order: the login request, the write of the token,
the whoami request, the write of `user`, the navigation to "/profile". -/
theorem login_success (env : Option String) (remote : Remote)
    (username password T : String) (u : JSValue) (s : Session)
    (hlogin : LoginAccepted env remote username password T)
    (hwho : WhoamiOk env remote T u) :
    login env remote username password s =
      ⟨"Successfully Logged in.", { user := u, token := some T },
        [.fetch (loginRequest env username password), .setItem "token" T,
          .fetch (whoamiRequest env T), .setUser u, .navigate "/profile"]⟩ := by
  obtain ⟨res1, userData, hres1, hok1, hjson1, huser⟩ := hwho
  rw [login_of_accepted env remote username password T s hlogin]
  simp [hres1, hok1, hjson1, huser]

/-- Scenario A of the specification, as an instance of `login_success`. -/
theorem login_success_witness :
    LoginAccepted none (acceptingRemote "T1" alice) "alice" "correct" "T1" ∧
    WhoamiOk none (acceptingRemote "T1" alice) "T1" alice ∧
    login none (acceptingRemote "T1" alice) "alice" "correct" (mount none) =
      ⟨"Successfully Logged in.", { user := alice, token := some "T1" },
        [.fetch (loginRequest none "alice" "correct"), .setItem "token" "T1",
          .fetch (whoamiRequest none "T1"), .setUser alice, .navigate "/profile"]⟩ :=
  ⟨acceptingRemote_loginAccepted _ _ _ _ _, acceptingRemote_whoamiOk _ _ _ _,
    login_success none (acceptingRemote "T1" alice) "alice" "correct" "T1" alice (mount none)
      (acceptingRemote_loginAccepted _ _ _ _ _) (acceptingRemote_whoamiOk _ _ _ _)⟩

/-- C5. When the login endpoint answers non-2xx, `login` returns "Invalid
username or password", leaves the session (user and store) exactly as it
was, and its only effect is the login request: no whoami request and no
navigation. -/
theorem login_rejected (env : Option String) (remote : Remote)
    (username password : String) (s : Session)
    (h : LoginRejected env remote username password) :
    login env remote username password s =
      ⟨"Invalid username or password", s, [.fetch (loginRequest env username password)]⟩ := by
  obtain ⟨res, hres, hok⟩ := h
  simp [login, hres, hok]

/-- Scenario B of the specification, as an instance of `login_rejected`. -/
theorem login_rejected_witness :
    LoginRejected none (statusRemote 401) "alice" "wrong" ∧
    login none (statusRemote 401) "alice" "wrong" (mount none) =
      ⟨"Invalid username or password", { user := .null, token := none },
        [.fetch (loginRequest none "alice" "wrong")]⟩ :=
  ⟨⟨_, rfl, by decide⟩,
    login_rejected none (statusRemote 401) "alice" "wrong" (mount none) ⟨_, rfl, by decide⟩⟩

/-- C3, as stated, fails: a transport error at the whoami request leaves the
token of the accepted login in the store, so the session is not the one from
before the call. -/
theorem login_transport_error_counterexample :
    TransportErrorAt none (vanishingRemote "T1") "alice" "correct" (.whoamiRequest "T1") ∧
    (login none (vanishingRemote "T1") "alice" "correct" (mount none)).ret =
      "An error occurred while logging in" ∧
    (login none (vanishingRemote "T1") "alice" "correct" (mount none)).session.token =
      some "T1" ∧
    (login none (vanishingRemote "T1") "alice" "correct" (mount none)).session ≠ mount none := by
  have h := login_of_accepted none (vanishingRemote "T1") "alice" "correct" "T1" (mount none)
    (vanishingRemote_loginAccepted _ _ _ _)
  refine ⟨⟨vanishingRemote_loginAccepted _ _ _ _, vanishingRemote_whoami _ _ _⟩, ?_, ?_, ?_⟩ <;>
    rw [h] <;> simp [vanishingRemote_whoami, loginCatch, mount]

/-- C3, amended. A transport error at any of the four `await`s of `login`
makes it return "An error occurred while logging in" and leaves `user` as it
was; the store is as it was when the error is at the login request or at
reading its body, and holds the token of the accepted login when the error
is at the whoami request or at reading its body. -/
theorem login_transport_error (env : Option String) (remote : Remote)
    (username password : String) (s : Session) (stage : LoginAwait)
    (h : TransportErrorAt env remote username password stage) :
    (login env remote username password s).ret = "An error occurred while logging in" ∧
    (login env remote username password s).session =
      { user := s.user, token := stage.storeAfter s.token } := by
  cases stage with
  | loginRequest =>
    have hres : remote (loginRequest env username password) = none := h
    simp [login, hres, loginCatch, LoginAwait.storeAfter]
  | loginBody =>
    obtain ⟨res, hres, hok, hjson⟩ := h
    simp [login, hres, hok, hjson, loginCatch, LoginAwait.storeAfter]
  | whoamiRequest T =>
    obtain ⟨hacc, hres1⟩ := h
    rw [login_of_accepted env remote username password T s hacc]
    simp [hres1, loginCatch, LoginAwait.storeAfter]
  | whoamiBody T =>
    obtain ⟨hacc, res1, hres1, hok1, hjson1⟩ := h
    rw [login_of_accepted env remote username password T s hacc]
    simp [hres1, hok1, hjson1, loginCatch, LoginAwait.storeAfter]

/-- An instance of `login_transport_error` at the whoami request. -/
theorem login_transport_error_witness :
    TransportErrorAt none (vanishingRemote "T1") "alice" "correct" (.whoamiRequest "T1") ∧
    (login none (vanishingRemote "T1") "alice" "correct" (mount none)).ret =
      "An error occurred while logging in" ∧
    (login none (vanishingRemote "T1") "alice" "correct" (mount none)).session =
      { user := .null, token := some "T1" } :=
  ⟨⟨vanishingRemote_loginAccepted _ _ _ _, vanishingRemote_whoami _ _ _⟩,
    login_transport_error none (vanishingRemote "T1") "alice" "correct" (mount none)
      (.whoamiRequest "T1") ⟨vanishingRemote_loginAccepted _ _ _ _, vanishingRemote_whoami _ _ _⟩⟩

/-- C4, as stated, fails: `alice` logs in, then a second login is accepted
with token "T2" and its whoami answers 401; `user` is still `alice` after
the call, not absent. -/
theorem login_whoami_rejected_counterexample :
    LoginAccepted none (expiringRemote "T2") "bob" "secret" "T2" ∧
    WhoamiRejected none (expiringRemote "T2") "T2" ∧
    (login none (expiringRemote "T2") "bob" "secret"
      (login none (acceptingRemote "T1" alice) "alice" "correct" (mount none)).session).session.user
        = alice ∧
    alice ≠ JSValue.null := by
  have h1 := login_of_accepted_of_whoamiOk none (acceptingRemote "T1" alice) "alice" "correct" "T1" alice
    (mount none) (acceptingRemote_loginAccepted _ _ _ _ _) (acceptingRemote_whoamiOk _ _ _ _)
  have h2 := login_of_accepted none (expiringRemote "T2") "bob" "secret" "T2"
    { user := alice, token := some "T1" } (expiringRemote_loginAccepted _ _ _ _)
  refine ⟨expiringRemote_loginAccepted _ _ _ _, expiringRemote_whoamiRejected _ _ _, ?_, ?_⟩
  · rw [h1, h2]
    simp [expiringRemote, whoamiRequest, Response.ok]
  · simp [alice]

/-- C4, amended. When the login endpoint answers 2xx with token `T` and the
whoami request carrying `T` answers non-2xx, `login` returns "Failed to
fetch user info", the store holds `T`, `user` is what it was before the call
(absent if it was absent), and the effects are the two requests and the write
of the token: no navigation. -/
theorem login_whoami_rejected (env : Option String) (remote : Remote)
    (username password T : String) (s : Session)
    (hlogin : LoginAccepted env remote username password T)
    (hwho : WhoamiRejected env remote T) :
    login env remote username password s =
      ⟨"Failed to fetch user info", { user := s.user, token := some T },
        [.fetch (loginRequest env username password), .setItem "token" T,
          .fetch (whoamiRequest env T)]⟩ := by
  obtain ⟨res1, hres1, hok1⟩ := hwho
  rw [login_of_accepted env remote username password T s hlogin]
  simp [hres1, hok1]

/-- An instance of `login_whoami_rejected` from the state at mount. -/
theorem login_whoami_rejected_witness :
    LoginAccepted none (expiringRemote "T1") "alice" "correct" "T1" ∧
    WhoamiRejected none (expiringRemote "T1") "T1" ∧
    login none (expiringRemote "T1") "alice" "correct" (mount none) =
      ⟨"Failed to fetch user info", { user := .null, token := some "T1" },
        [.fetch (loginRequest none "alice" "correct"), .setItem "token" "T1",
          .fetch (whoamiRequest none "T1")]⟩ :=
  ⟨expiringRemote_loginAccepted _ _ _ _, expiringRemote_whoamiRejected _ _ _,
    login_whoami_rejected none (expiringRemote "T1") "alice" "correct" "T1" (mount none)
      (expiringRemote_loginAccepted _ _ _ _) (expiringRemote_whoamiRejected _ _ _)⟩

/-! ## Rehydration at mount -/

/-- C6, as stated, fails: with the empty string stored and a service that
would answer whoami 2xx with `alice`, `fetchUser` issues no request and
leaves `user` absent (the guard `if (!token) return` takes the empty string
for no token). -/
theorem fetchUser_empty_token_counterexample :
    WhoamiOk none (acceptingRemote "T1" alice) "" alice ∧
    fetchUser none (acceptingRemote "T1" alice) (mount (some "")) =
      ⟨(), { user := .null, token := some "" }, []⟩ ∧
    (fetchUser none (acceptingRemote "T1" alice) (mount (some ""))).session.user ≠ alice := by
  refine ⟨acceptingRemote_whoamiOk _ _ _ _, ?_, ?_⟩ <;> simp [fetchUser, mount, alice]

/-- C6, amended. `fetchUser` run at mount ends in exactly this state:
(i) nothing stored, or the empty string stored: no request, `user` absent,
store unchanged; for a stored non-empty token `T`: (ii) whoami answers 2xx
with `u`: `user = u`, token kept; (iii) whoami answers non-2xx: token
removed, `user` absent; (iv) transport error: token kept, `user` absent,
error logged. The stored token is removed if and only if it is non-empty and
whoami answered non-2xx. -/
theorem fetchUser_at_mount (env : Option String) (remote : Remote) (T : String) :
    fetchUser env remote (mount none) = ⟨(), mount none, []⟩ ∧
    fetchUser env remote (mount (some "")) = ⟨(), mount (some ""), []⟩ ∧
    (T ≠ "" → ∀ u, WhoamiOk env remote T u →
      fetchUser env remote (mount (some T)) =
        ⟨(), { user := u, token := some T }, [.fetch (whoamiRequest env T), .setUser u]⟩) ∧
    (T ≠ "" → WhoamiRejected env remote T →
      fetchUser env remote (mount (some T)) =
        ⟨(), { user := .null, token := none },
          [.fetch (whoamiRequest env T), .removeItem "token"]⟩) ∧
    (T ≠ "" → WhoamiTransportError env remote T →
      fetchUser env remote (mount (some T)) =
        ⟨(), { user := .null, token := some T },
          [.fetch (whoamiRequest env T), .consoleError "Error checking user on mount:"]⟩) ∧
    ((fetchUser env remote (mount (some T))).session.token = none ↔
      (T ≠ "" ∧ WhoamiRejected env remote T)) := by
  refine ⟨by simp [fetchUser, mount], by simp [fetchUser, mount], ?_, ?_, ?_, ?_⟩
  · rintro hT u ⟨res, data, hres, hok, hjson, huser⟩
    simp [fetchUser, mount, hT, hres, hok, hjson, huser]
  · rintro hT ⟨res, hres, hok⟩
    simp [fetchUser, mount, hT, hres, hok]
  · rintro hT (hres | ⟨res, hres, hok, hjson | ⟨data, hjson, huser⟩⟩)
    · simp [fetchUser, mount, hT, hres, fetchUserCatch]
    · simp [fetchUser, mount, hT, hres, hok, hjson, fetchUserCatch]
    · simp [fetchUser, mount, hT, hres, hok, hjson, huser, fetchUserCatch]
  · by_cases hT : T = ""
    · simp [fetchUser, mount, hT]
    · cases hres : remote (whoamiRequest env T) with
      | none => simp [fetchUser, mount, hT, hres, fetchUserCatch, WhoamiRejected]
      | some res =>
        cases hok : res.ok with
        | false => simp [fetchUser, mount, hT, hres, hok, WhoamiRejected]
        | true =>
          cases hjson : res.json with
          | none => simp [fetchUser, mount, hT, hres, hok, hjson, fetchUserCatch, WhoamiRejected]
          | some data =>
            cases huser : data.getProp "user" with
            | none =>
              simp [fetchUser, mount, hT, hres, hok, hjson, huser, fetchUserCatch, WhoamiRejected]
            | some u => simp [fetchUser, mount, hT, hres, hok, hjson, huser, WhoamiRejected]

/-- Scenario E of the specification, as an instance of `fetchUser_at_mount`:
token "T2" stored, whoami answers 401. -/
theorem fetchUser_at_mount_witness :
    "T2" ≠ "" ∧ WhoamiRejected none (statusRemote 401) "T2" ∧
    fetchUser none (statusRemote 401) (mount (some "T2")) =
      ⟨(), { user := .null, token := none },
        [.fetch (whoamiRequest none "T2"), .removeItem "token"]⟩ :=
  ⟨by decide, ⟨_, rfl, by decide⟩,
    (fetchUser_at_mount none (statusRemote 401) "T2").2.2.2.1 (by decide) ⟨_, rfl, by decide⟩⟩

/-! ## Logout -/

/-- C7. From every session `logout` ends with the store empty and `user`
absent; its effects are the removal of the token, the write of `user` and
the navigation to "/", none of them a network request. Hence a second
`logout` leaves the same session as the first, and a stray token next to an
absent `user` is removed. -/
theorem logout_clears (s : Session) (T : String) :
    logout s = ⟨(), { user := .null, token := none },
      [.removeItem "token", .setUser .null, .navigate "/"]⟩ ∧
    (∀ req, Effect.fetch req ∉ (logout s).effects) ∧
    (logout (logout s).session).session = (logout s).session ∧
    (logout { user := .null, token := some T }).session = { user := .null, token := none } := by
  refine ⟨rfl, ?_, rfl, rfl⟩
  intro req
  simp [logout]

/-! ## Login, reload, rehydration -/

/-- C8, as stated, fails: a login accepted with the empty string as token
succeeds and sets `user = alice`, but after a reload `fetchUser` takes the
stored empty string for no token and `user` stays absent. -/
theorem login_reload_counterexample :
    LoginAccepted none (acceptingRemote "" alice) "alice" "correct" "" ∧
    WhoamiOk none (acceptingRemote "" alice) "" alice ∧
    (login none (acceptingRemote "" alice) "alice" "correct" (mount none)).session =
      { user := alice, token := some "" } ∧
    (fetchUser none (acceptingRemote "" alice)
      (reload (login none (acceptingRemote "" alice) "alice" "correct" (mount none)).session)).session
        = { user := .null, token := some "" } ∧
    alice ≠ JSValue.null := by
  have h := login_of_accepted_of_whoamiOk none (acceptingRemote "" alice) "alice" "correct" "" alice
    (mount none) (acceptingRemote_loginAccepted _ _ _ _ _) (acceptingRemote_whoamiOk _ _ _ _)
  refine ⟨acceptingRemote_loginAccepted _ _ _ _ _, acceptingRemote_whoamiOk _ _ _ _, ?_, ?_, ?_⟩
  · rw [h]
  · rw [h]
    simp [fetchUser, reload, mount]
  · simp [alice]

/-- C8, amended. For a non-empty token `T`: if login is accepted with `T`
and whoami carrying `T` answers 2xx with `u`, and after a reload `fetchUser`
runs against a service whose whoami carrying `T` again answers 2xx with `u`,
then `user = u` and the stored token is still `T`. -/
theorem login_reload_roundtrip (env : Option String) (remote remote1 : Remote)
    (username password T : String) (u : JSValue) (s : Session)
    (hT : T ≠ "")
    (hlogin : LoginAccepted env remote username password T)
    (hwho : WhoamiOk env remote T u)
    (hwho1 : WhoamiOk env remote1 T u) :
    (fetchUser env remote1
      (reload (login env remote username password s).session)).session =
      { user := u, token := some T } := by
  rw [login_of_accepted_of_whoamiOk env remote username password T u s hlogin hwho]
  have h := fetchUser_eq_of_whoamiOk env remote1 T u hT hwho1
  simpa [reload] using congrArg Outcome.session h

/-- An instance of `login_reload_roundtrip` with token "T1" and user `alice`. -/
theorem login_reload_roundtrip_witness :
    "T1" ≠ "" ∧
    LoginAccepted none (acceptingRemote "T1" alice) "alice" "correct" "T1" ∧
    WhoamiOk none (acceptingRemote "T1" alice) "T1" alice ∧
    (fetchUser none (acceptingRemote "T1" alice)
      (reload (login none (acceptingRemote "T1" alice) "alice" "correct" (mount none)).session)).session
        = { user := alice, token := some "T1" } :=
  ⟨by decide, acceptingRemote_loginAccepted _ _ _ _ _, acceptingRemote_whoamiOk _ _ _ _,
    login_reload_roundtrip none (acceptingRemote "T1" alice) (acceptingRemote "T1" alice)
      "alice" "correct" "T1" alice (mount none) (by decide)
      (acceptingRemote_loginAccepted _ _ _ _ _) (acceptingRemote_whoamiOk _ _ _ _)
      (acceptingRemote_whoamiOk _ _ _ _)⟩

/-! ## Register -/

/-- C9. For every payload and every prior session, `register` leaves the
session unchanged and returns: "Username already exists." on status 409;
"Something went wrong while registering." on any other non-2xx status; the
`message` of the body on 2xx, after navigating to "/success"; "An error
occurred while registering." when `fetch` rejects or the 2xx body cannot be
read or is `null`. It navigates only in the 2xx case, and only to "/success". -/
theorem register_cases (env : Option String) (remote : Remote) (userData : JSFields)
    (s : Session) :
    (register env remote userData s).session = s ∧
    (∀ res, remote (registerRequest env userData) = some res → res.status = 409 →
      (register env remote userData s).ret = .string "Username already exists." ∧
      (register env remote userData s).effects = [.fetch (registerRequest env userData)]) ∧
    (∀ res, remote (registerRequest env userData) = some res → res.status ≠ 409 →
      res.ok = false →
      (register env remote userData s).ret = .string "Something went wrong while registering." ∧
      (register env remote userData s).effects = [.fetch (registerRequest env userData)]) ∧
    (∀ res data message, remote (registerRequest env userData) = some res → res.ok = true →
      res.json = some data → data.getProp "message" = some message →
      (register env remote userData s).ret = message ∧
      (register env remote userData s).effects =
        [.fetch (registerRequest env userData), .navigate "/success"]) ∧
    ((remote (registerRequest env userData) = none ∨
        ∃ res, remote (registerRequest env userData) = some res ∧ res.ok = true ∧
          (res.json = none ∨ ∃ data, res.json = some data ∧ data.getProp "message" = none)) →
      (register env remote userData s).ret = .string "An error occurred while registering." ∧
      (register env remote userData s).effects = [.fetch (registerRequest env userData)]) ∧
    (∀ path, Effect.navigate path ∈ (register env remote userData s).effects →
      path = "/success" ∧
      ∃ res, remote (registerRequest env userData) = some res ∧ res.ok = true) := by
  have h409 : ∀ res : Response, res.ok = true → res.status ≠ 409 := by
    intro res hok h
    simp [Response.ok, h] at hok
  refine ⟨?_, ?_, ?_, ?_, ?_, ?_⟩
  · unfold register
    simp only []
    repeat' split
    all_goals rfl
  · intro res hres hst
    simp [register, hres, hst]
  · intro res hres hst hok
    simp [register, hres, hst, hok]
  · intro res data message hres hok hjson hmsg
    simp [register, hres, h409 res hok, hok, hjson, hmsg]
  · rintro (hres | ⟨res, hres, hok, hjson | ⟨data, hjson, hmsg⟩⟩)
    · simp [register, hres]
    · simp [register, hres, h409 res hok, hok, hjson]
    · simp [register, hres, h409 res hok, hok, hjson, hmsg]
  · intro path
    cases hres : remote (registerRequest env userData) with
    | none => simp [register, hres]
    | some res =>
      by_cases hst : res.status = 409
      · simp [register, hres, hst]
      · cases hok : res.ok with
        | false => simp [register, hres, hst, hok]
        | true =>
          cases hjson : res.json with
          | none => simp [register, hres, hst, hok, hjson]
          | some data =>
            cases hmsg : data.getProp "message" with
            | none => simp [register, hres, hst, hok, hjson, hmsg]
            | some message =>
              simp [register, hres, hst, hok, hjson, hmsg]

/-- Scenario C of the specification, as an instance of `register_cases`: the
service answers 409. -/
theorem register_cases_witness :
    statusRemote 409 (registerRequest none (.cons "username" (.string "bob") .nil)) =
      some ⟨409, some (.object .nil)⟩ ∧
    (register none (statusRemote 409) (.cons "username" (.string "bob") .nil) (mount none)).ret =
      .string "Username already exists." ∧
    (register none (statusRemote 409) (.cons "username" (.string "bob") .nil) (mount none)).effects =
      [.fetch (registerRequest none (.cons "username" (.string "bob") .nil))] :=
  ⟨rfl, (register_cases none (statusRemote 409) (.cons "username" (.string "bob") .nil)
    (mount none)).2.1 ⟨409, some (.object .nil)⟩ rfl rfl⟩

/-! ## The invariant of sequential use -/

theorem userHasToken_fetchUser_mount (env : Option String) (remote : Remote)
    (stored : Option String) :
    UserHasToken (fetchUser env remote (mount stored)).session := by
  unfold fetchUser UserHasToken
  simp only []
  repeat' split
  all_goals simp_all [mount, fetchUserCatch]

theorem userHasToken_login (env : Option String) (remote : Remote)
    (username password : String) (s : Session) (h : UserHasToken s) :
    UserHasToken (login env remote username password s).session := by
  unfold login
  unfold UserHasToken at *
  simp only []
  repeat' split
  all_goals simp_all [loginCatch]

theorem userHasToken_register (env : Option String) (remote : Remote)
    (userData : JSFields) (s : Session) (h : UserHasToken s) :
    UserHasToken (register env remote userData s).session := by
  unfold register
  simp only []
  repeat' split
  all_goals exact h

theorem userHasToken_runCalls (env : Option String) (calls : List (Remote × Call)) :
    ∀ s, UserHasToken s → UserHasToken (runCalls env calls s) := by
  induction calls with
  | nil => intro s h; exact h
  | cons rc rest ih =>
    intro s h
    obtain ⟨remote, c⟩ := rc
    apply ih
    cases c with
    | login username password => exact userHasToken_login env remote username password s h
    | register userData => exact userHasToken_register env remote userData s h
    | logout => intro hu; exact absurd rfl hu

/-- C1. Start with `user` absent and anything in the store, run `fetchUser`
once, then any finite sequence of `login`, `register` and `logout` calls,
each to completion and each against an arbitrary behaviour of the remote
service: if `user` is not `null` in the resulting session, the store holds a
token. -/
theorem user_implies_token (env : Option String) (stored : Option String)
    (remote : Remote) (calls : List (Remote × Call))
    (h : (runCalls env calls (fetchUser env remote (mount stored)).session).user ≠ .null) :
    (runCalls env calls (fetchUser env remote (mount stored)).session).token.isSome = true :=
  userHasToken_runCalls env calls _ (userHasToken_fetchUser_mount env remote stored) h

/-- An instance of `user_implies_token`: nothing stored at mount, then one
successful login. -/
theorem user_implies_token_witness :
    (runCalls none [(acceptingRemote "T1" alice, Call.login "alice" "correct")]
      (fetchUser none (statusRemote 401) (mount none)).session).user ≠ .null ∧
    (runCalls none [(acceptingRemote "T1" alice, Call.login "alice" "correct")]
      (fetchUser none (statusRemote 401) (mount none)).session).token.isSome = true :=
  have h : (runCalls none [(acceptingRemote "T1" alice, Call.login "alice" "correct")]
      (fetchUser none (statusRemote 401) (mount none)).session).user ≠ .null := by
    have hl := login_of_accepted_of_whoamiOk none (acceptingRemote "T1" alice) "alice" "correct"
      "T1" alice (fetchUser none (statusRemote 401) (mount none)).session
      (acceptingRemote_loginAccepted _ _ _ _ _) (acceptingRemote_whoamiOk _ _ _ _)
    simp only [runCalls, Call.run, hl]
    simp [alice]
  ⟨h, user_implies_token none none (statusRemote 401)
    [(acceptingRemote "T1" alice, Call.login "alice" "correct")] h⟩

/-! ## Logout while a login is in flight -/

/-- C10. Let the login endpoint accept with token `T` and the whoami request
carrying `T` answer 2xx with `u`. After `login` is called and resumed twice
it is suspended at its whoami request with `T` already persisted. If
`logout` is called at that point and the login is then resumed to its end,
the login returns "Successfully Logged in." and the final session has
`user = u` and an empty store: the late write of `user` lands on the
logged-out state. -/
theorem logout_during_login (env : Option String) (remote : Remote)
    (username password T : String) (u : JSValue) (s : Session)
    (hlogin : LoginAccepted env remote username password T)
    (hwho : WhoamiOk env remote T u) :
    App.run env remote [.callLogin username password, .resumeLogin 0, .resumeLogin 0]
      ⟨s, [], []⟩ =
      ⟨{ user := s.user, token := some T }, [.awaitWhoami (whoamiRequest env T)],
        [.fetch (loginRequest env username password), .setItem "token" T,
          .fetch (whoamiRequest env T)]⟩ ∧
    App.run env remote (logoutDuringLogin username password) ⟨s, [], []⟩ =
      ⟨{ user := u, token := none }, [.returned "Successfully Logged in."],
        [.fetch (loginRequest env username password), .setItem "token" T,
          .fetch (whoamiRequest env T), .removeItem "token", .setUser .null, .navigate "/",
          .setUser u, .navigate "/profile"]⟩ := by
  obtain ⟨res, data, hres, hok, hjson, htok⟩ := hlogin
  obtain ⟨res1, userData, hres1, hok1, hjson1, huser⟩ := hwho
  constructor
  · simp [App.run, App.step, LoginTask.resume, hres, hok, hjson, htok, JSValue.toStr]
  · simp [logoutDuringLogin, App.run, App.step, LoginTask.resume, logout, hres, hok, hjson,
      htok, JSValue.toStr, hres1, hok1, hjson1, huser]

/-- An instance of `logout_during_login`: the final session has `user`
equal to `alice`, which is not `null`, and no stored token. -/
theorem logout_during_login_witness :
    LoginAccepted none (acceptingRemote "T1" alice) "alice" "correct" "T1" ∧
    WhoamiOk none (acceptingRemote "T1" alice) "T1" alice ∧
    (App.run none (acceptingRemote "T1" alice) (logoutDuringLogin "alice" "correct")
      ⟨mount none, [], []⟩).session = { user := alice, token := none } ∧
    alice ≠ JSValue.null :=
  ⟨acceptingRemote_loginAccepted _ _ _ _ _, acceptingRemote_whoamiOk _ _ _ _,
    congrArg App.session
      (logout_during_login none (acceptingRemote "T1" alice) "alice" "correct" "T1" alice
        (mount none) (acceptingRemote_loginAccepted _ _ _ _ _)
        (acceptingRemote_whoamiOk _ _ _ _)).2,
    by simp [alice]⟩

end AuthContext
